import Mathlib

/-
Verification of the event/callback core of the rust-pushrod widget toolkit:
a shallow embedding of `src/core/callbacks.rs` (the `CallbackStore`) and
`src/widget/timer_widget.rs` (the `TimerWidget`), with theorems settling the
specified properties of lookup/insertion and of the per-frame timer tick.

Modelling conventions:
- Rust `u64` values are `Nat`; the unchecked `u64` subtraction in `tick`
  (`time_ms() - self.initiated`) is modelled by `sub64`, the wrapping
  subtraction modulo 2^64 of release builds (debug builds panic on underflow).
- The clock `time_ms()` is an effect: each source call site becomes an
  explicit `Nat` argument (`tick` reads the clock twice, so it takes two).
- A Rust callback closure `Fn(Args) -> ()` is modelled as a function from its
  arguments to the `List α` of observable actions it performs (`α` a type
  parameter); the do-nothing closure is the one returning `[]`.
- The `HashMap<u32, CallbackTypes>` is modelled extensionally as a function
  `Nat → Option (CallbackTypes α)`; `insert` overwrites (last write wins),
  matching `std::collections::HashMap`.
-/

namespace Pushrod

/-- Modelled from the spec: 2-D point geometry primitive (external collaborator;
`src/core/point.rs` is not among the provided sources). -/
structure Point where
  x : Int
  y : Int
deriving DecidableEq, Repr

/-- Modelled from the spec: size geometry primitive (external collaborator;
`src/core/point.rs` is not among the provided sources). -/
structure Size where
  w : Int
  h : Int
deriving DecidableEq, Repr

/-- Stand-in for `piston_window::Key` (external dependency): an opaque key code. -/
structure Key where
  code : Nat
deriving DecidableEq, Repr

/-- Stand-in for `piston_window::ButtonState` (external dependency). -/
inductive ButtonState where
  | Press
  | Release
deriving DecidableEq, Repr

/-- Stand-in for `piston_window::Button` (external dependency): an opaque button code. -/
structure Button where
  code : Nat
deriving DecidableEq, Repr

/-- Modelled from the spec: the external per-widget configuration store is opaque
(`src/widget/config.rs` is not among the provided sources). -/
abbrev Configurable := Unit

/-- The tagged union of callback signatures from `src/core/callbacks.rs`
(`CallbackTypes`).  Each constructor owns one closure; a closure is modelled as
a function from its Rust arguments to the list of observable actions (in `α`)
it performs.  Widget ids are `i32` in the source, hence `Int` here. -/
inductive CallbackTypes (α : Type) where
  | BlankCallback (callback : Unit → List α)
  | SingleCallback (callback : Int → List α)
  | BoolCallback (callback : Int → Bool → List α)
  | PointCallback (callback : Int → Point → List α)
  | SizeCallback (callback : Int → Size → List α)
  | KeyCallback (callback : Int → Key → ButtonState → List α)
  | ButtonCallback (callback : Int → Button → List α)

/-- The tag (discriminant) of a `CallbackTypes` variant. -/
inductive CallbackTag where
  | BlankCallback
  | SingleCallback
  | BoolCallback
  | PointCallback
  | SizeCallback
  | KeyCallback
  | ButtonCallback
deriving DecidableEq, Repr

/-- Tag of a variant. -/
def tagOf {α : Type} : CallbackTypes α → CallbackTag
  | .BlankCallback _ => .BlankCallback
  | .SingleCallback _ => .SingleCallback
  | .BoolCallback _ => .BoolCallback
  | .PointCallback _ => .PointCallback
  | .SizeCallback _ => .SizeCallback
  | .KeyCallback _ => .KeyCallback
  | .ButtonCallback _ => .ButtonCallback

/-- The `CallbackStore` of `src/core/callbacks.rs`: a mapping from numeric slot
id (`u32`, modelled as `Nat`) to a stored `CallbackTypes` variant.  The
`HashMap` is modelled extensionally as a partial function. -/
structure CallbackStore (α : Type) where
  callbacks : Nat → Option (CallbackTypes α)

namespace CallbackStore

/-- `CallbackStore::new`: the empty mapping. -/
def new {α : Type} : CallbackStore α :=
  { callbacks := fun _ => none }

/-- `CallbackStore::put(id, func)`: `self.callbacks.insert(id, func)` —
stores/overwrites the variant at slot `id` (HashMap insert: last write wins). -/
def put {α : Type} (cs : CallbackStore α) (id : Nat) (func : CallbackTypes α) :
    CallbackStore α :=
  { callbacks := fun k => if k = id then some func else cs.callbacks k }

/-- `HashMap::contains_key` on the store's mapping. -/
def contains_key {α : Type} (cs : CallbackStore α) (id : Nat) : Bool :=
  (cs.callbacks id).isSome

/-- The default callback that `get` auto-inserts for an absent slot.  In the
source it is `CallbackTypes::SingleCallback { callback: Box::new(|_arg| {}) }`:
a SingleCallback-tagged closure that ignores its argument and does nothing. -/
def defaultCallback (α : Type) : CallbackTypes α :=
  .SingleCallback (fun _arg => [])

/-- `CallbackStore::get(id)`: if the slot is present, return the stored variant
(store unchanged); otherwise `put` the default `SingleCallback` no-op at `id`
and return the freshly inserted entry (the source re-indexes the map after the
insert; the entry is then present, so the `Option.getD` fallback is dead). -/
def get {α : Type} (cs : CallbackStore α) (id : Nat) :
    CallbackStore α × CallbackTypes α :=
  match cs.callbacks id with
  | some f => (cs, f)
  | none =>
    let cs2 := cs.put id (defaultCallback α)
    (cs2, (cs2.callbacks id).getD (defaultCallback α))

end CallbackStore

/-- Modelled from the spec: the DomainEvent type `CallbackEvent` is declared in
`core/callbacks` of the full repository but absent from the provided sources
(the provided `callbacks.rs` predates it; `timer_widget.rs` imports it).  Per
the spec it is a closed value type with currently one variant,
`TimerTriggered { widget_id }`. -/
inductive CallbackEvent where
  | TimerTriggered (widget_id : Nat)
deriving DecidableEq, Repr

/-- 2^64, the wraparound modulus of Rust `u64` arithmetic. -/
def U64 : Nat := 18446744073709551616

/-- Rust `u64` subtraction `a - b` in release semantics: wraps modulo 2^64
(meaningful for `a b < U64`; debug builds panic when `b > a`). -/
def sub64 (a b : Nat) : Nat :=
  (a + U64 - b) % U64

/-- The `TimerWidget` state of `src/widget/timer_widget.rs`: configuration
handle, `enabled`, `initiated` (ms timestamp of last reset), `timeout` (ms),
and `event`, the at-most-one pending `CallbackEvent`. -/
structure TimerWidget where
  config : Configurable
  enabled : Bool
  initiated : Nat
  timeout : Nat
  event : Option CallbackEvent
deriving DecidableEq, Repr

namespace TimerWidget

/-- `TimerWidget::new`: enabled, `initiated = time_ms()` (the clock reading is
the explicit argument `now`), `timeout = 0`, no pending event. -/
def new (now : Nat) : TimerWidget :=
  { config := (), enabled := true, initiated := now, timeout := 0, event := none }

/-- `TimerWidget::tick`: if not enabled, return unchanged.  Otherwise compute
`elapsed = time_ms() - self.initiated` (unchecked `u64` subtraction, first
clock reading `now1`); if `elapsed > timeout`, set `initiated = time_ms()`
(second clock reading `now2`) and set the pending event to
`CallbackEvent::TimerTriggered { widget_id: 0 }` (the source hardcodes 0). -/
def tick (now1 now2 : Nat) (w : TimerWidget) : TimerWidget :=
  if !w.enabled then w
  else
    let elapsed := sub64 now1 w.initiated
    if elapsed > w.timeout then
      { w with initiated := now2, event := some (.TimerTriggered 0) }
    else w

/-- `TimerWidget::set_enabled(enabled)`: sets the flag and unconditionally
resets `initiated = time_ms()` (clock reading `now`). -/
def set_enabled (now : Nat) (flag : Bool) (w : TimerWidget) : TimerWidget :=
  { w with enabled := flag, initiated := now }

/-- `TimerWidget::set_timeout(timeout)`: sets the timeout field only. -/
def set_timeout (ms : Nat) (w : TimerWidget) : TimerWidget :=
  { w with timeout := ms }

/-- `Widget::inject_event` for `TimerWidget`: clones the pending event, clears
the field, returns the clone. -/
def inject_event (w : TimerWidget) : TimerWidget × Option CallbackEvent :=
  ({ w with event := none }, w.event)

/-- `Widget::draw` for `TimerWidget` ignores the render context and only
ticks (two clock readings, as in `tick`). -/
def draw (now1 now2 : Nat) (w : TimerWidget) : TimerWidget :=
  tick now1 now2 w

end TimerWidget

/-- Wrapping `u64` subtraction agrees with truncated subtraction when no
underflow occurs. -/
theorem sub64_of_le {a b : Nat} (hba : b ≤ a) (ha : a < U64) :
    sub64 a b = a - b := by
  unfold sub64 U64 at *
  omega

/-- Wrapping `u64` subtraction on underflow: for `a < b < 2^64` the result is
the huge value `2^64 - (b - a)`. -/
theorem sub64_of_lt {a b : Nat} (hab : a < b) (hb : b < U64) :
    sub64 a b = U64 - (b - a) := by
  unfold sub64 U64 at *
  omega

/-- C1 counterexample: the claim says the default auto-inserted by `get` on an
absent slot is NoArg-tagged (`BlankCallback`, the zero-argument shape).  On the
fresh store, `get 1` in fact returns a `SingleCallback`-tagged (WidgetId-shaped)
default, so its tag is not `BlankCallback`. -/
theorem C1_default_is_not_noarg :
    tagOf ((CallbackStore.new (α := Unit)).get 1).2 ≠ CallbackTag.BlankCallback := by
  decide

/-- C1 (amended): `get` never signals "not found": when the slot is absent, it
inserts the default no-op callback — which is `SingleCallback`-tagged
(WidgetId-shaped), not NoArg-tagged — at that slot and returns it; after this
first `get` the slot is present in the mapping, and a second `get` on the slot
returns the same default (same tag) without further change to the store. -/
theorem C1_get_absent_inserts_default (α : Type) (cs : CallbackStore α) (id : Nat)
    (h : cs.callbacks id = none) :
    tagOf (cs.get id).2 = CallbackTag.SingleCallback ∧
    (cs.get id).2 = CallbackStore.defaultCallback α ∧
    ((cs.get id).1).contains_key id = true ∧
    (((cs.get id).1).get id).2 = (cs.get id).2 ∧
    (((cs.get id).1).get id).1 = (cs.get id).1 := by
  simp [CallbackStore.get, CallbackStore.put, CallbackStore.contains_key, h,
    CallbackStore.defaultCallback, tagOf]

/-- C1 witness: the hypotheses and conclusion of
`C1_get_absent_inserts_default` hold at the fresh store and slot 1. -/
theorem C1_get_absent_inserts_default_witness :
    (CallbackStore.new (α := Unit)).callbacks 1 = none ∧
    tagOf ((CallbackStore.new (α := Unit)).get 1).2 = CallbackTag.SingleCallback ∧
    ((CallbackStore.new (α := Unit)).get 1).1.contains_key 1 = true :=
  ⟨rfl, (C1_get_absent_inserts_default Unit CallbackStore.new 1 rfl).1,
    (C1_get_absent_inserts_default Unit CallbackStore.new 1 rfl).2.2.1⟩

/-- C4: `put(s, v)` followed by `get(s)` returns `v` itself (hence a variant of
the same tag, whose closure is the very closure of `v`, so invoking it has the
same observable effect), leaving the store unchanged; a second `put` on the
same slot overwrites the first (last write wins). -/
theorem C4_put_get_roundtrip (α : Type) (cs : CallbackStore α) (s : Nat)
    (v v1 v2 : CallbackTypes α) :
    ((cs.put s v).get s).2 = v ∧
    tagOf ((cs.put s v).get s).2 = tagOf v ∧
    ((cs.put s v).get s).1 = cs.put s v ∧
    (((cs.put s v1).put s v2).get s).2 = v2 := by
  simp [CallbackStore.get, CallbackStore.put]

/-- C2: evaluating `tick` at a triggering input: for a widget with
`initiated = 0`, `timeout = 50`, clock at 60, the produced event is
`TimerTriggered` with `widget_id = 0` — the hardcoded literal of the source
(`CallbackEvent::TimerTriggered { widget_id: 0 }`), not an identifier of the
producing instance (the `TimerWidget` struct stores no id at all). -/
theorem C2_tick_emits_hardcoded_widget_id_zero :
    (TimerWidget.tick 60 60
        { config := (), enabled := true, initiated := 0, timeout := 50, event := none }).event
      = some (CallbackEvent.TimerTriggered 0) := by
  decide

/-- C3: for an enabled widget with `timeout = 50`, `initiated = T` and no
pending event, `tick` sets the pending event exactly when the elapsed time is
strictly greater than 50; a tick at elapsed 30 leaves the widget completely
unchanged (no pending event), and a tick at elapsed 60 produces exactly one
`TimerTriggered` and resets `initiated` to the new clock reading, so elapsed
restarts at 0. -/
theorem C3_tick_threshold (w : TimerWidget) (T now n2 : Nat)
    (hen : w.enabled = true) (hinit : w.initiated = T) (hto : w.timeout = 50)
    (hev : w.event = none) (hle : T ≤ now) (hb : now < U64) (hb2 : T + 60 < U64) :
    ((TimerWidget.tick now n2 w).event = some (CallbackEvent.TimerTriggered 0)
        ↔ 50 < now - T) ∧
    TimerWidget.tick (T + 30) n2 w = w ∧
    (TimerWidget.tick (T + 60) (T + 60) w).event = some (CallbackEvent.TimerTriggered 0) ∧
    (TimerWidget.tick (T + 60) (T + 60) w).initiated = T + 60 := by
  have h30 : sub64 (T + 30) T = 30 := by
    rw [sub64_of_le (by omega) (by omega)]; omega
  have h60 : sub64 (T + 60) T = 60 := by
    rw [sub64_of_le (by omega) (by omega)]; omega
  have hnow : sub64 now T = now - T := sub64_of_le hle hb
  refine ⟨?_, ?_, ?_, ?_⟩
  · simp only [TimerWidget.tick, hen, hinit, hnow, Bool.not_true, Bool.false_eq_true,
      if_false]
    split
    · simp [*]; omega
    · simp [hev]; omega
  · simp [TimerWidget.tick, hen, hinit, hto, h30]
  · simp [TimerWidget.tick, hen, hinit, hto, h60]
  · simp [TimerWidget.tick, hen, hinit, hto, h60]

/-- C3 witness: the hypotheses and the triggering/non-triggering conclusions of
`C3_tick_threshold` hold at the concrete widget with `initiated = 0`,
`timeout = 50`, clock readings 30 and 60. -/
theorem C3_tick_threshold_witness :
    (⟨(), true, 0, 50, none⟩ : TimerWidget).enabled = true ∧
    TimerWidget.tick (0 + 30) 60 ⟨(), true, 0, 50, none⟩ = ⟨(), true, 0, 50, none⟩ ∧
    (TimerWidget.tick (0 + 60) (0 + 60) (⟨(), true, 0, 50, none⟩ : TimerWidget)).event
      = some (CallbackEvent.TimerTriggered 0) :=
  have h := C3_tick_threshold ⟨(), true, 0, 50, none⟩ 0 60 60 rfl rfl rfl rfl
    (by decide) (by decide) (by decide)
  ⟨rfl, h.2.1, h.2.2.1⟩

/-- C5: `inject_event` drains the pending event exactly once: it returns the
pending event and clears the field, so an immediately following call returns
none; on a widget with no pending event it returns none (the returned option
is the old `event` field, which is none). -/
theorem C5_inject_event_drains_once (w : TimerWidget) :
    (TimerWidget.inject_event w).2 = w.event ∧
    ((TimerWidget.inject_event w).1).event = none ∧
    (TimerWidget.inject_event ((TimerWidget.inject_event w).1)).2 = none := by
  simp [TimerWidget.inject_event]

/-- C6: `set_enabled(flag)` sets `enabled` to `flag` and always resets
`initiated` to the current clock reading, whatever the previous state (other
fields unchanged); consequently a later tick whose elapsed time since that
reset is at most the timeout leaves the widget unchanged — no immediate fire
from residual elapsed time. -/
theorem C6_set_enabled_resets_initiated (w : TimerWidget) (now : Nat) (flag : Bool)
    (now' n2 : Nat) (h1 : now ≤ now') (h2 : now' < U64)
    (h3 : now' - now ≤ w.timeout) :
    (TimerWidget.set_enabled now flag w).enabled = flag ∧
    (TimerWidget.set_enabled now flag w).initiated = now ∧
    (TimerWidget.set_enabled now flag w).timeout = w.timeout ∧
    (TimerWidget.set_enabled now flag w).event = w.event ∧
    TimerWidget.tick now' n2 (TimerWidget.set_enabled now flag w)
      = TimerWidget.set_enabled now flag w := by
  have hnow : sub64 now' now = now' - now := sub64_of_le h1 h2
  refine ⟨rfl, rfl, rfl, rfl, ?_⟩
  cases flag with
  | false => simp [TimerWidget.tick, TimerWidget.set_enabled]
  | true =>
    simp only [TimerWidget.tick, TimerWidget.set_enabled, hnow, Bool.not_true,
      Bool.false_eq_true, if_false]
    have : ¬ (w.timeout < now' - now) := by omega
    simp [this]

/-- C6 witness: the hypotheses and conclusions of
`C6_set_enabled_resets_initiated` hold for a disable-then-re-enable at time 10
followed by a tick at time 20 with timeout 50. -/
theorem C6_set_enabled_resets_initiated_witness :
    (TimerWidget.set_enabled 10 true ⟨(), false, 0, 50, none⟩).initiated = 10 ∧
    TimerWidget.tick 20 20 (TimerWidget.set_enabled 10 true ⟨(), false, 0, 50, none⟩)
      = TimerWidget.set_enabled 10 true ⟨(), false, 0, 50, none⟩ :=
  have h := C6_set_enabled_resets_initiated ⟨(), false, 0, 50, none⟩ 10 true 20 20
    (by decide) (by decide) (by decide)
  ⟨h.2.1, h.2.2.2.2⟩

/-- C7 counterexample: the claim says that when the clock reading during tick
is earlier than `initiated`, elapsed is clamped to zero or a monotonic source
is used, so no nonsensical huge elapsed value arises.  With `initiated = 100`,
`timeout = 1000000` and the clock read back at 50, the elapsed value actually
used is the wrapped `2^64 - 50` — not 0, vastly larger than the timeout — and
the tick spuriously fires. -/
theorem C7_backward_clock_spurious_fire :
    sub64 50 100 = U64 - 50 ∧
    1000000 < sub64 50 100 ∧
    (TimerWidget.tick 50 50
        { config := (), enabled := true, initiated := 100, timeout := 1000000,
          event := none }).event
      = some (CallbackEvent.TimerTriggered 0) := by
  refine ⟨by decide, by decide, by decide⟩

/-- C7 (amended): the elapsed computation in `tick` is unguarded against a
non-monotonic clock.  When the reading `now` is earlier than `initiated`, the
unchecked `u64` subtraction wraps (release semantics; debug builds panic on
the underflow): elapsed becomes the huge value `2^64 - (initiated - now)`, at
least `2^64 - initiated`; whenever that exceeds the timeout, the tick
spuriously fires and resets `initiated`.  Elapsed is neither clamped to zero
nor taken from a monotonic source (`time_ms` uses `SystemTime`). -/
theorem C7_backward_clock_unguarded (w : TimerWidget) (now n2 : Nat)
    (hen : w.enabled = true) (hlt : now < w.initiated) (hb : w.initiated < U64)
    (hto : w.timeout < U64 - (w.initiated - now)) :
    sub64 now w.initiated = U64 - (w.initiated - now) ∧
    U64 - w.initiated ≤ sub64 now w.initiated ∧
    TimerWidget.tick now n2 w
      = { w with initiated := n2, event := some (CallbackEvent.TimerTriggered 0) } := by
  have hw : sub64 now w.initiated = U64 - (w.initiated - now) := sub64_of_lt hlt hb
  refine ⟨hw, by omega, ?_⟩
  simp only [TimerWidget.tick, hen, hw, Bool.not_true, Bool.false_eq_true, if_false]
  have : w.timeout < U64 - (w.initiated - now) := hto
  simp [this]

/-- C7 witness: the hypotheses and conclusions of `C7_backward_clock_unguarded`
hold at `initiated = 100`, `timeout = 999`, with the clock read back at 40. -/
theorem C7_backward_clock_unguarded_witness :
    40 < (100 : Nat) ∧
    TimerWidget.tick 40 40 ⟨(), true, 100, 999, none⟩
      = ⟨(), true, 40, 999, some (CallbackEvent.TimerTriggered 0)⟩ :=
  have h := C7_backward_clock_unguarded ⟨(), true, 100, 999, none⟩ 40 40 rfl
    (by decide) (by decide) (by decide)
  ⟨by decide, h.2.2⟩

/-- C8: for a widget with `enabled = false`, `tick` returns the whole state
unchanged: no pending event is produced and `initiated` is untouched (no clock
reading is applied to the state). -/
theorem C8_tick_disabled_unchanged (w : TimerWidget) (n1 n2 : Nat)
    (h : w.enabled = false) :
    TimerWidget.tick n1 n2 w = w := by
  simp [TimerWidget.tick, h]

/-- C8 witness: a disabled widget ticked far past its timeout is unchanged. -/
theorem C8_tick_disabled_unchanged_witness :
    (⟨(), false, 0, 10, none⟩ : TimerWidget).enabled = false ∧
    TimerWidget.tick 999 999 ⟨(), false, 0, 10, none⟩ = ⟨(), false, 0, 10, none⟩ :=
  ⟨rfl, C8_tick_disabled_unchanged ⟨(), false, 0, 10, none⟩ 999 999 rfl⟩

/-- C9: `set_timeout(ms)` updates only the `timeout` field — `enabled`,
`initiated` and the pending event are unchanged, and `initiated` is not reset;
consequently, if the already-elapsed time exceeds the new threshold `ms`, the
very next tick fires. -/
theorem C9_set_timeout_updates_only_timeout (w : TimerWidget) (ms now n2 : Nat)
    (hen : w.enabled = true) (hle : w.initiated ≤ now) (hb : now < U64)
    (hfire : ms < now - w.initiated) :
    (TimerWidget.set_timeout ms w).timeout = ms ∧
    (TimerWidget.set_timeout ms w).enabled = w.enabled ∧
    (TimerWidget.set_timeout ms w).initiated = w.initiated ∧
    (TimerWidget.set_timeout ms w).event = w.event ∧
    (TimerWidget.tick now n2 (TimerWidget.set_timeout ms w)).event
      = some (CallbackEvent.TimerTriggered 0) := by
  have hnow : sub64 now w.initiated = now - w.initiated := sub64_of_le hle hb
  refine ⟨rfl, rfl, rfl, rfl, ?_⟩
  simp only [TimerWidget.tick, TimerWidget.set_timeout, hen, hnow, Bool.not_true,
    Bool.false_eq_true, if_false]
  simp [hfire]

/-- C9 witness: the hypotheses and conclusions of
`C9_set_timeout_updates_only_timeout` hold when a widget with `initiated = 0`
and timeout 100 has elapsed 50 and the timeout is lowered to 10. -/
theorem C9_set_timeout_updates_only_timeout_witness :
    (TimerWidget.set_timeout 10 ⟨(), true, 0, 100, none⟩).initiated = 0 ∧
    (TimerWidget.tick 50 50 (TimerWidget.set_timeout 10 ⟨(), true, 0, 100, none⟩)).event
      = some (CallbackEvent.TimerTriggered 0) :=
  have h := C9_set_timeout_updates_only_timeout ⟨(), true, 0, 100, none⟩ 10 50 50 rfl
    (by decide) (by decide) (by decide)
  ⟨h.2.2.1, h.2.2.2.2⟩

/-- C10: the widget state holds at most one pending `CallbackEvent` (an
`Option` field), and the operations preserve this: any tick either leaves the
pending event unchanged or sets it to the single fresh `TimerTriggered` event;
`inject_event` consumes and clears the pending event atomically; and a
triggering tick while an earlier event `e` is still undrained replaces it with
the fresh event rather than queueing a second one. -/
theorem C10_at_most_one_pending_event (w w' : TimerWidget) (n1 n2 : Nat)
    (e : CallbackEvent) (hev : w.event = some e) (hen : w.enabled = true)
    (htr : w.timeout < sub64 n1 w.initiated) :
    ((TimerWidget.tick n1 n2 w').event = w'.event ∨
      (TimerWidget.tick n1 n2 w').event = some (CallbackEvent.TimerTriggered 0)) ∧
    ((TimerWidget.inject_event w').1).event = none ∧
    (TimerWidget.inject_event w').2 = w'.event ∧
    (TimerWidget.tick n1 n2 w).event = some (CallbackEvent.TimerTriggered 0) := by
  refine ⟨?_, rfl, rfl, ?_⟩
  · unfold TimerWidget.tick
    split
    · exact Or.inl rfl
    · by_cases hc : w'.timeout < sub64 n1 w'.initiated
      · simp [hc]
      · simp [hc]
  · simp only [TimerWidget.tick, hen, Bool.not_true, Bool.false_eq_true, if_false]
    simp [htr]

/-- C10 witness: the hypotheses and conclusions of
`C10_at_most_one_pending_event` hold for a widget with an undrained
`TimerTriggered 7` pending and a tick past its timeout, which overwrites the
pending event with the fresh `TimerTriggered 0`. -/
theorem C10_at_most_one_pending_event_witness :
    (⟨(), true, 0, 10, some (CallbackEvent.TimerTriggered 7)⟩ : TimerWidget).event
      = some (CallbackEvent.TimerTriggered 7) ∧
    (TimerWidget.inject_event ⟨(), true, 0, 10, none⟩).2 = none ∧
    (TimerWidget.tick 20 20
        (⟨(), true, 0, 10, some (CallbackEvent.TimerTriggered 7)⟩ : TimerWidget)).event
      = some (CallbackEvent.TimerTriggered 0) :=
  have h := C10_at_most_one_pending_event
    ⟨(), true, 0, 10, some (CallbackEvent.TimerTriggered 7)⟩ ⟨(), true, 0, 10, none⟩
    20 20 (CallbackEvent.TimerTriggered 7) rfl rfl (by decide)
  ⟨rfl, h.2.2.1, h.2.2.2⟩

end Pushrod
